import Mathlib

/-!
Shallow embedding of the astrologix-backend appointment subsystem.

Sources embedded:
- `src/unnamed/part_003` (the Mongoose `Appointment` schema, including the
  `status` / `paymentStatus` enum validators that run on `save()`),
- `src/routes/appointments.js` (available slots, create, cancel),
- `src/routes/admin.js` (admin status override),
- `src/routes/payments.js` (verify, failed),
- `src/routes/videoCall.js` (create-room, call-status),
- `src/unnamed/part_000` (`DailyService.createRoom`: deterministic room name
  `consultation-<appointmentId>`).

Times are modelled as integer milliseconds since the epoch (JS `Date.getTime()`).
String-valued request fields stay strings; schema enum fields whose stored
values are always produced by the code are modelled as inductive types, except
`status`, whose schema enum (`pending/confirmed/completed/cancelled`, schema
lines 38-42) is checked explicitly at save time because the call-status route
assigns the out-of-enum value `in-progress`.
-/

namespace Astrologix

/-- The five status values the routes assign (`in-progress` is assigned by
`src/routes/videoCall.js:127` even though the schema enum omits it). -/
inductive Status
  | pending
  | confirmed
  | inProgress
  | completed
  | cancelled
  deriving DecidableEq, Repr

/-- `paymentStatus` enum of the schema (`part_003` lines 43-47). -/
inductive PaymentStatus
  | pending
  | completed
  | failed
  | refunded
  deriving DecidableEq, Repr

/-- `package` enum of the schema (`part_003` lines 21-25). -/
inductive Package
  | basic
  | premium
  | advanced
  deriving DecidableEq, Repr

/-- The `videoCall` subdocument (`part_003` lines 48-58). -/
structure VideoCall where
  roomName : Option String := none
  roomUrl : Option String := none
  isActive : Bool := false
  startedAt : Option Int := none
  endedAt : Option Int := none
  deriving DecidableEq, Repr

/-- One appointment document (`part_003`). -/
structure Appointment where
  id : String
  user : String
  appointmentDate : Int
  appointmentTime : String
  consultationType : String
  package : Package
  amount : Int
  duration : Int
  status : Status
  paymentStatus : PaymentStatus
  videoCall : VideoCall := {}
  paymentId : Option String := none
  orderId : Option String := none
  rating : Option Nat := none
  review : Option String := none
  deriving DecidableEq, Repr

/-- The `status` values accepted by the enum validator of the schema
(`part_003` lines 38-42): `in-progress` is NOT among them. -/
def schemaStatusEnum : List Status :=
  [Status.pending, Status.confirmed, Status.completed, Status.cancelled]

/-- Mongoose runs the enum validators on `save()`; a document whose `status`
is outside the schema enum fails validation and is not persisted. -/
def validForSave (a : Appointment) : Bool :=
  decide (a.status ∈ schemaStatusEnum)

/-- `document.save()`: persists and returns the document when validation
passes, otherwise raises a `ValidationError` (modelled as `none`). -/
def saveAppointment (a : Appointment) : Option Appointment :=
  if validForSave a then some a else none

/-- Outcome kinds of the route handlers, keyed to their HTTP responses. -/
inductive ApiError
  | notFound
  | forbidden
  | tooLate
  | invalidPackage
  | missingFields
  | invalidStatus
  | serverError
  deriving DecidableEq, Repr

/-! ## Availability resolver (`src/routes/appointments.js` lines 22-45) -/

/-- One slot entry as the route builds it. -/
structure Slot where
  time : String
  label : String
  deriving DecidableEq, Repr

/-- The fixed list built at `appointments.js` lines 31-38. -/
def weekdaySlots : List Slot :=
  [ { time := "17:00", label := "5:00 PM - 5:30 PM" },
    { time := "17:30", label := "5:30 PM - 6:00 PM" },
    { time := "18:00", label := "6:00 PM - 6:30 PM" },
    { time := "18:30", label := "6:30 PM - 7:00 PM" },
    { time := "19:00", label := "7:00 PM - 7:30 PM" },
    { time := "19:30", label := "7:30 PM - 8:00 PM" } ]

/-- `new Date(date).getDay()` for a date lying `epochDays` whole days after
1970-01-01, which was a Thursday (index 4); 0 denotes Sunday. -/
def getDay (epochDays : Nat) : Nat :=
  (epochDays + 4) % 7

/-- GET `/available-slots/:date` (`appointments.js` lines 22-45): empty on
Sunday, the fixed six-slot list otherwise. -/
def availableSlots (epochDays : Nat) : List Slot :=
  if getDay epochDays = 0 then [] else weekdaySlots

/-! ## Package resolution (`src/routes/appointments.js` lines 69-88) -/

/-- The literal `packageMapping` object (lines 70-77): an exact-match table. -/
def packageMapping (n : String) : Option String :=
  if n = "Basic Consultation" then some "basic"
  else if n = "Premium Consultation" then some "premium"
  else if n = "Advanced Consultation" then some "advanced"
  else if n = "basic" then some "basic"
  else if n = "premium" then some "premium"
  else if n = "advanced" then some "advanced"
  else none

/-- JS `String.prototype.toLowerCase` restricted to the ASCII range, which
covers every package name the route compares against. -/
def jsToLower (s : String) : String :=
  String.mk (s.data.map Char.toLower)

/-- `packageMapping[packageInfo.name] || packageInfo.name?.toLowerCase()`
(line 79): table hit, else the lowercased name (`none` models a JS falsy
result: absent name, or the empty string). -/
def mappedPackage (name : Option String) : Option String :=
  match name with
  | none => none
  | some n =>
    match packageMapping n with
    | some m => some m
    | none => if jsToLower n = "" then none else some (jsToLower n)

/-- Lines 79-88: the mapped name must be one of `basic/premium/advanced`,
otherwise the route answers 400 `Invalid package type`. -/
def resolvePackage (name : Option String) : Option Package :=
  match mappedPackage name with
  | none => none
  | some m =>
    if m = "basic" then some Package.basic
    else if m = "premium" then some Package.premium
    else if m = "advanced" then some Package.advanced
    else none

/-! ## Create (`src/routes/appointments.js` lines 48-155) -/

/-- The `package` object of the request body (`packageInfo`). -/
structure PackageInfo where
  name : Option String := none
  price : Int := 0
  duration : Int := 0
  deriving DecidableEq, Repr

/-- POST `/` (lines 48-155). After field validation (line 61) and package
resolution (lines 79-88) succeed, line 102 evaluates
`await appointment.save()` — but `const appointment` is only declared at
line 111 of the same block, so this read is in the temporal dead zone and
raises `ReferenceError`; the catch at line 132 sees `error.name` equal to
`ReferenceError` (not `ValidationError`) and answers 500
`Error creating appointment`. No record is ever persisted. -/
def createAppointment (_userId : String) (appointmentDate : Option Int)
    (appointmentTime : Option String) (consultationType : Option String)
    (packageInfo : Option PackageInfo) : Except ApiError Appointment :=
  match appointmentDate, appointmentTime, consultationType, packageInfo with
  | some _, some _, some _, some p =>
    match resolvePackage p.name with
    | none => Except.error ApiError.invalidPackage
    | some _ =>
      -- line 102: ReferenceError (`appointment` used before its declaration
      -- at line 111) -> catch at line 132 -> 500 response, nothing saved.
      Except.error ApiError.serverError
  | _, _, _, _ => Except.error ApiError.missingFields

/-! ## Cancel (`src/routes/appointments.js` lines 158-214) -/

/-- Two hours in milliseconds: the route compares
`(appointmentDate - now) / 3600000 < 2`, i.e. `appointmentDate - now <
7200000` (lines 182-187). -/
def twoHoursMs : Int := 2 * 60 * 60 * 1000

/-- PUT `/:id/cancel` (lines 158-214), on an appointment the store resolved:
ownership check (line 173), the 2-hour/pending guard (line 187), then
status `cancelled` / paymentStatus `refunded` and `save()` (lines 195-197). -/
def cancelAppointment (a : Appointment) (userId : String) (now : Int) :
    Except ApiError Appointment :=
  if a.user ≠ userId then Except.error ApiError.forbidden
  else if a.appointmentDate - now < twoHoursMs ∧ a.status ≠ Status.pending then
    Except.error ApiError.tooLate
  else
    match saveAppointment
        { a with status := Status.cancelled,
                 paymentStatus := PaymentStatus.refunded } with
    | some a' => Except.ok a'
    | none => Except.error ApiError.serverError

/-! ## Admin status override (`src/routes/admin.js` lines 125-166) -/

/-- The accepted values list at `admin.js` line 129, mapped into `Status`;
`none` on anything outside `[pending, confirmed, completed, cancelled]`. -/
def parseAdminStatus (s : String) : Option Status :=
  if s = "pending" then some Status.pending
  else if s = "confirmed" then some Status.confirmed
  else if s = "completed" then some Status.completed
  else if s = "cancelled" then some Status.cancelled
  else none

/-- PUT `/appointments/:id/status` (lines 125-166), on a resolved
appointment: reject unlisted values before any write (lines 129-134), else
assign the status (line 145); entering `confirmed` while `paymentStatus`
is `pending` also forces `paymentStatus = completed` (lines 147-149). -/
def adminSetStatus (a : Appointment) (s : String) : Except ApiError Appointment :=
  match parseAdminStatus s with
  | none => Except.error ApiError.invalidStatus
  | some st =>
    let a1 := { a with status := st }
    let a2 :=
      if s = "confirmed" ∧ a.paymentStatus = PaymentStatus.pending then
        { a1 with paymentStatus := PaymentStatus.completed }
      else a1
    match saveAppointment a2 with
    | some a' => Except.ok a'
    | none => Except.error ApiError.serverError

/-! ## Payments (`src/routes/payments.js`) -/

/-- `Appointment.findByIdAndUpdate(id, f)`: applies the update to the
document with the matching id, a no-op when no document matches. -/
def findByIdAndUpdate (store : List Appointment) (id : String)
    (f : Appointment → Appointment) : List Appointment :=
  store.map fun a => if a.id = id then f a else a

/-- POST `/verify` (lines 80-112): no signature verification, no ownership
check, no existence check — it unconditionally issues
`findByIdAndUpdate(appointmentId, {paymentStatus: completed, status:
confirmed, razorpayPaymentId, paidAt: new Date()})` and answers success.
The schema (`part_003`) defines neither a `razorpayPaymentId` nor a
`paidAt` path, so the default strict mode of mongoose strips both from the
update: only `paymentStatus` and `status` reach the store. The acting
user, order id, signature, payment id and timestamp are all taken, as the
route takes them, but never affect the persisted record. Returns the
updated store and the success flag of the response. -/
def verifyPayment (store : List Appointment) (_actingUser : String)
    (_orderId : Option String) (_signature : Option String)
    (appointmentId : String) (_paymentId : String) (_now : Int) :
    List Appointment × Bool :=
  (findByIdAndUpdate store appointmentId fun a =>
    { a with paymentStatus := PaymentStatus.completed,
             status := Status.confirmed }, true)

/-- POST `/failed` (lines 117-138): unconditional
`findByIdAndUpdate(appointmentId, {paymentStatus: failed, status:
cancelled})`, then success. -/
def paymentFailed (store : List Appointment) (appointmentId : String) :
    List Appointment × Bool :=
  (findByIdAndUpdate store appointmentId fun a =>
    { a with paymentStatus := PaymentStatus.failed,
             status := Status.cancelled }, true)

/-! ## Video call routes (`src/routes/videoCall.js`, `src/unnamed/part_000`) -/

/-- The authenticated caller as the `auth` middleware provides it. -/
structure AuthUser where
  id : String
  role : String
  deriving DecidableEq, Repr

/-- What `DailyService.createRoom` returns (`part_000` lines 18-50): the
room is created under the deterministic name `consultation-<appointmentId>`
(line 20) and the provider echoes that name and its URL back. -/
structure RoomData where
  roomName : String
  roomUrl : String
  deriving DecidableEq, Repr

/-- `dailyService.createRoom(appointmentId, expiry)` (`part_000` lines
18-50): the name is fully determined by the appointment id; the URL is the
address of the provider for that room. The expiry only feeds the room config. -/
def dailyCreateRoom (appointmentId : String) (_expiresAt : Int) : RoomData :=
  { roomName := "consultation-" ++ appointmentId,
    roomUrl := "https://astrologix.daily.co/consultation-" ++ appointmentId }

/-- POST `/create-room/:appointmentId` (`videoCall.js` lines 8-59), on a
resolved appointment: owner-or-admin check (line 20), room expiry =
scheduled time + 3 hours (line 30), bridge call, then the whole `videoCall`
subdocument is replaced with the returned name/URL and `isActive: false`
(lines 35-39), and the document is saved. -/
def createRoomHandler (a : Appointment) (u : AuthUser) :
    Except ApiError Appointment :=
  if a.user = u.id ∨ u.role = "admin" then
    let roomData := dailyCreateRoom a.id (a.appointmentDate + 3 * 60 * 60 * 1000)
    match saveAppointment
        { a with videoCall :=
            { roomName := some roomData.roomName,
              roomUrl := some roomData.roomUrl,
              isActive := false } } with
    | some a' => Except.ok a'
    | none => Except.error ApiError.serverError
  else Except.error ApiError.forbidden

/-- PUT `/call-status/:appointmentId` (`videoCall.js` lines 112-157), on a
resolved appointment. `started` sets `videoCall.isActive = true`, records
`startedAt` and assigns the status `in-progress`; `ended` sets
`isActive = false`, records `endedAt` and assigns the status `completed`;
any other `status` argument modifies nothing. Then `save()` runs: the
schema enum rejects `in-progress`, so the `started` branch always raises a
`ValidationError`, lands in the catch (line 150) and answers 500. -/
def setCallStatus (a : Appointment) (s : String) (now : Int) :
    Except ApiError Appointment :=
  let a' :=
    if s = "started" then
      { a with
        videoCall := { a.videoCall with isActive := true, startedAt := some now },
        status := Status.inProgress }
    else if s = "ended" then
      { a with
        videoCall := { a.videoCall with isActive := false, endedAt := some now },
        status := Status.completed }
    else a
  match saveAppointment a' with
  | some a'' => Except.ok a''
  | none => Except.error ApiError.serverError

/-! ## Helper lemmas -/

theorem saveAppointment_of_valid (x : Appointment) (h : x.status ∈ schemaStatusEnum) :
    saveAppointment x = some x := by
  simp [saveAppointment, validForSave, h]

theorem saveAppointment_some (x y : Appointment) (h : saveAppointment x = some y) :
    y = x := by
  by_cases hv : validForSave x = true
  · rw [saveAppointment, if_pos hv] at h
    exact (Option.some.inj h).symm
  · rw [saveAppointment, if_neg hv] at h
    exact absurd h (by simp)

theorem parseAdminStatus_mem (s : String) (st : Status)
    (h : parseAdminStatus s = some st) : st ∈ schemaStatusEnum := by
  unfold parseAdminStatus at h
  split_ifs at h <;> simp_all [schemaStatusEnum]

theorem parseAdminStatus_none (s : String)
    (h : s ∉ ["pending", "confirmed", "completed", "cancelled"]) :
    parseAdminStatus s = none := by
  simp only [List.mem_cons, List.mem_singleton, not_or] at h
  unfold parseAdminStatus
  split_ifs <;> simp_all

theorem cancelAppointment_owner (a : Appointment) (u : String) (now : Int)
    (hown : a.user = u) :
    cancelAppointment a u now =
      if a.appointmentDate - now < twoHoursMs ∧ a.status ≠ Status.pending then
        Except.error ApiError.tooLate
      else
        Except.ok { a with status := Status.cancelled,
                           paymentStatus := PaymentStatus.refunded } := by
  unfold cancelAppointment
  rw [if_neg (fun hn => hn hown)]
  by_cases hc : a.appointmentDate - now < twoHoursMs ∧ a.status ≠ Status.pending
  · rw [if_pos hc, if_pos hc]
  · rw [if_neg hc, if_neg hc,
      saveAppointment_of_valid _ (show Status.cancelled ∈ schemaStatusEnum by decide)]

theorem findByIdAndUpdate_not_found (store : List Appointment) (id : String)
    (f : Appointment → Appointment) (h : ∀ a ∈ store, a.id ≠ id) :
    findByIdAndUpdate store id f = store := by
  induction store with
  | nil => rfl
  | cons x xs ih =>
    unfold findByIdAndUpdate
    simp only [List.map_cons]
    rw [if_neg (h x (by simp))]
    have hxs := ih (fun a ha => h a (by simp [ha]))
    unfold findByIdAndUpdate at hxs
    rw [hxs]

theorem findByIdAndUpdate_mem (store : List Appointment) (id : String)
    (f : Appointment → Appointment) (a : Appointment) (ha : a ∈ store)
    (hid : a.id = id) : f a ∈ findByIdAndUpdate store id f := by
  unfold findByIdAndUpdate
  have hfa : f a = (fun x => if x.id = id then f x else x) a := by
    simp [hid]
  rw [hfa]
  exact List.mem_map_of_mem _ ha

/-! ## Concrete documents used in witnesses and counterexamples -/

/-- A confirmed, paid appointment scheduled 10800000 ms (3 h) after epoch 0. -/
def exAppt : Appointment :=
  { id := "a1", user := "u1", appointmentDate := 10800000,
    appointmentTime := "17:00", consultationType := "video",
    package := Package.basic, amount := 500, duration := 30,
    status := Status.confirmed, paymentStatus := PaymentStatus.completed }

def exPendingAppt : Appointment :=
  { exAppt with status := Status.pending, paymentStatus := PaymentStatus.pending }

def exCompletedAppt : Appointment :=
  { exAppt with status := Status.completed }

def exCancelledAppt : Appointment :=
  { exAppt with status := Status.cancelled }

/-- `exAppt` after an earlier room creation stored its deterministic name. -/
def exRoomAppt : Appointment :=
  { exAppt with videoCall :=
      { roomName := some "consultation-a1",
        roomUrl := some "https://astrologix.daily.co/consultation-a1",
        isActive := false } }

/-! ## Claim theorems -/

/-- C1: for an appointment owned by the acting user, Cancel fails with
TooLate exactly when fewer than 2 hours remain before the scheduled time
and the status is not pending; a confirmed appointment 3 hours away is
cancelled with status `cancelled` and paymentStatus `refunded`, one 1 hour
away fails with TooLate, and a pending appointment is cancellable
regardless of lead time. -/
theorem c1_cancel_two_hour_rule (a : Appointment) (u : String) (now : Int)
    (hown : a.user = u) :
    (cancelAppointment a u now = Except.error ApiError.tooLate ↔
      a.appointmentDate - now < twoHoursMs ∧ a.status ≠ Status.pending) ∧
    (a.status = Status.confirmed → a.appointmentDate - now = 3 * 60 * 60 * 1000 →
      cancelAppointment a u now =
        Except.ok { a with status := Status.cancelled,
                           paymentStatus := PaymentStatus.refunded }) ∧
    (a.status = Status.confirmed → a.appointmentDate - now = 1 * 60 * 60 * 1000 →
      cancelAppointment a u now = Except.error ApiError.tooLate) ∧
    (a.status = Status.pending →
      cancelAppointment a u now =
        Except.ok { a with status := Status.cancelled,
                           paymentStatus := PaymentStatus.refunded }) := by
  rw [cancelAppointment_owner a u now hown]
  refine ⟨?_, ?_, ?_, ?_⟩
  · by_cases hc : a.appointmentDate - now < twoHoursMs ∧ a.status ≠ Status.pending
    · simp [hc]
    · simp [hc]
  · intro _ hd
    rw [if_neg]
    rw [hd, twoHoursMs]
    intro hc
    exact absurd hc.1 (by norm_num)
  · intro hs hd
    rw [if_pos ⟨by rw [hd, twoHoursMs]; norm_num,
      by rw [hs]; exact fun h => absurd h (by decide)⟩]
  · intro hs
    rw [if_neg (fun hc => hc.2 hs)]

/-- C1 witness: at epoch time 0 the confirmed appointment 3 hours out is
cancelled and refunded; at time 7200000 (1 hour of lead left) it fails with
TooLate; the pending one is cancelled with only 100000 ms of lead. -/
theorem c1_cancel_two_hour_rule_witness :
    cancelAppointment exAppt "u1" 0 =
      Except.ok { exAppt with status := Status.cancelled,
                              paymentStatus := PaymentStatus.refunded } ∧
    cancelAppointment exAppt "u1" 7200000 = Except.error ApiError.tooLate ∧
    cancelAppointment exPendingAppt "u1" 10700000 =
      Except.ok { exPendingAppt with status := Status.cancelled,
                                     paymentStatus := PaymentStatus.refunded } :=
  ⟨(c1_cancel_two_hour_rule exAppt "u1" 0 rfl).2.1 rfl (by decide),
   (c1_cancel_two_hour_rule exAppt "u1" 7200000 rfl).2.2.1 rfl (by decide),
   (c1_cancel_two_hour_rule exPendingAppt "u1" 10700000 rfl).2.2.2 rfl⟩

/-- C3: the claim is right and the code is wrong. SetCallStatus with
`started` assigns the appointment the status `in-progress`, which the
schema enum (`part_003` lines 38-42) does not list, so the save raises a
ValidationError and the route answers 500: the started branch never
persists anything, on any appointment. -/
theorem c3_call_started_never_persists (a : Appointment) (now : Int) :
    setCallStatus a "started" now = Except.error ApiError.serverError := rfl

/-- C4: the claim is right and the code is wrong. For every Create request
that passes field validation and package resolution, the handler evaluates
`appointment.save()` (`appointments.js` line 102) before the declaration
of `appointment` (line 111), raising a ReferenceError; the catch answers
500 and no record is persisted, so Create never returns success. -/
theorem c4_create_never_persists (u : String) (d : Int) (t c : String)
    (p : PackageInfo) (hp : (resolvePackage p.name).isSome = true) :
    createAppointment u (some d) (some t) (some c) (some p) =
      Except.error ApiError.serverError := by
  obtain ⟨pkg, h⟩ := Option.isSome_iff_exists.mp hp
  simp [createAppointment, h]

/-- C4 witness: a fully valid booking request (package `basic`) still ends
in the 500 ReferenceError outcome. -/
theorem c4_create_never_persists_witness :
    (resolvePackage (some "basic")).isSome = true ∧
    createAppointment "u1" (some 1760000000000) (some "17:00") (some "video")
        (some { name := some "basic", price := 500, duration := 30 }) =
      Except.error ApiError.serverError :=
  ⟨rfl, c4_create_never_persists "u1" 1760000000000 "17:00" "video"
    { name := some "basic", price := 500, duration := 30 } rfl⟩

/-- C5 counterexample: package resolution is not case-insensitive. The
exact synonym `Premium Consultation` resolves to premium, but its
lowercase variant `premium consultation` is rejected, so a case-variant of
a resolvable name is unresolvable. -/
theorem c5_counterexample_case_sensitivity :
    resolvePackage (some "Premium Consultation") = some Package.premium ∧
    resolvePackage (some "premium consultation") = none :=
  ⟨rfl, rfl⟩

/-- C5 amended: Create resolves the package name through an exact-match
synonym table (the three `X Consultation` keys and the three lowercase tier
names) with a fallback that lowercases the name and accepts it only if it
is exactly basic, premium or advanced — so bare tier names resolve
case-insensitively while the Consultation synonyms are case-sensitive —
and fails with InvalidPackage when unresolvable: `Premium Consultation`
resolves to premium, `advanced` (and `ADVANCED`) to advanced, and `gold`
fails with InvalidPackage. -/
theorem c5_package_resolution :
    resolvePackage (some "Premium Consultation") = some Package.premium ∧
    resolvePackage (some "advanced") = some Package.advanced ∧
    resolvePackage (some "ADVANCED") = some Package.advanced ∧
    resolvePackage (some "gold") = none ∧
    createAppointment "u1" (some 1760000000000) (some "17:00") (some "video")
        (some { name := some "gold", price := 100, duration := 30 }) =
      Except.error ApiError.invalidPackage :=
  ⟨rfl, rfl, rfl, rfl, rfl⟩

/-- C2 counterexample: a completed appointment is not terminal — the admin
status override moves it back to pending. -/
theorem c2_counterexample_terminal_left :
    exCompletedAppt.status = Status.completed ∧
    adminSetStatus exCompletedAppt "pending" =
      Except.ok { exCompletedAppt with status := Status.pending } :=
  ⟨rfl, rfl⟩

/-- C2 amended: terminal states are not preserved. Each of admin override
(completed to pending), payment verify (cancelled to confirmed), payment
failure (completed to cancelled), owner cancel with at least 2 hours of
lead (completed to cancelled), and SetCallStatus ended (cancelled to
completed) moves an appointment out of a terminal state. -/
theorem c2_terminal_states_not_preserved :
    adminSetStatus exCompletedAppt "pending" =
      Except.ok { exCompletedAppt with status := Status.pending } ∧
    (verifyPayment [exCancelledAppt] "u2" none none "a1" "pay1" 99).1 =
      [{ exCancelledAppt with paymentStatus := PaymentStatus.completed,
                              status := Status.confirmed }] ∧
    (paymentFailed [exCompletedAppt] "a1").1 =
      [{ exCompletedAppt with paymentStatus := PaymentStatus.failed,
                              status := Status.cancelled }] ∧
    cancelAppointment exCompletedAppt "u1" 0 =
      Except.ok { exCompletedAppt with status := Status.cancelled,
                                       paymentStatus := PaymentStatus.refunded } ∧
    setCallStatus exCancelledAppt "ended" 50 =
      Except.ok { exCancelledAppt with
        videoCall := { exCancelledAppt.videoCall with
          isActive := false, endedAt := some 50 },
        status := Status.completed } :=
  ⟨rfl, rfl, rfl, rfl, rfl⟩

/-- C6: once an earlier CreateRoom stored the deterministic room name
`consultation-<id>` on an appointment, any later successful CreateRoom
writes the same name back — the stored room name is never replaced by a
different value. -/
theorem c6_room_name_stable (a : Appointment) (u : AuthUser) (a' : Appointment)
    (hprev : a.videoCall.roomName = some ("consultation-" ++ a.id))
    (h : createRoomHandler a u = Except.ok a') :
    a'.videoCall.roomName = a.videoCall.roomName := by
  simp only [createRoomHandler, dailyCreateRoom] at h
  by_cases hauth : a.user = u.id ∨ u.role = "admin"
  · rw [if_pos hauth] at h
    split at h
    · rename_i a'' hs
      have ha'' := saveAppointment_some _ _ hs
      have ha' : a' = a'' := (Except.ok.inj h).symm
      rw [ha', ha'', hprev]
    · exact absurd h (by simp)
  · rw [if_neg hauth] at h
    exact absurd h (by simp)

/-- C6 witness: a second CreateRoom by the owner on an appointment that
already carries `consultation-a1` leaves the stored room name unchanged. -/
theorem c6_room_name_stable_witness :
    ({ exRoomAppt with videoCall :=
        { roomName := some "consultation-a1",
          roomUrl := some "https://astrologix.daily.co/consultation-a1",
          isActive := false } } : Appointment).videoCall.roomName =
      exRoomAppt.videoCall.roomName :=
  c6_room_name_stable exRoomAppt { id := "u1", role := "client" } _ rfl rfl

/-- C7: the admin status override accepts exactly the four listed values —
anything else is rejected as invalid before any write — and setting
`confirmed` while the payment is pending also forces the payment to
completed, while every other accepted target leaves the payment status
unchanged. -/
theorem c7_admin_override (a : Appointment) :
    (∀ s, s ∉ ["pending", "confirmed", "completed", "cancelled"] →
      adminSetStatus a s = Except.error ApiError.invalidStatus) ∧
    (∀ s st, parseAdminStatus s = some st → s ≠ "confirmed" →
      adminSetStatus a s = Except.ok { a with status := st }) ∧
    (a.paymentStatus = PaymentStatus.pending →
      adminSetStatus a "confirmed" =
        Except.ok { a with status := Status.confirmed,
                           paymentStatus := PaymentStatus.completed }) ∧
    (a.paymentStatus ≠ PaymentStatus.pending →
      adminSetStatus a "confirmed" =
        Except.ok { a with status := Status.confirmed }) := by
  refine ⟨?_, ?_, ?_, ?_⟩
  · intro s hs
    rw [adminSetStatus, parseAdminStatus_none s hs]
  · intro s st hparse hne
    rw [adminSetStatus, hparse]
    simp only [hne, false_and, if_false]
    rw [saveAppointment_of_valid _ (parseAdminStatus_mem s st hparse)]
  · intro hpay
    simp [adminSetStatus, parseAdminStatus, hpay, saveAppointment, validForSave,
      schemaStatusEnum]
  · intro hpay
    simp [adminSetStatus, parseAdminStatus, hpay, saveAppointment, validForSave,
      schemaStatusEnum]

/-- C7 witness: an unlisted value is rejected, `completed` is applied with
the payment untouched, and `confirmed` forces a pending payment to
completed while leaving a non-pending payment alone. -/
theorem c7_admin_override_witness :
    adminSetStatus exAppt "frozen" = Except.error ApiError.invalidStatus ∧
    adminSetStatus exAppt "completed" =
      Except.ok { exAppt with status := Status.completed } ∧
    adminSetStatus exPendingAppt "confirmed" =
      Except.ok { exPendingAppt with status := Status.confirmed,
                                     paymentStatus := PaymentStatus.completed } ∧
    adminSetStatus exAppt "confirmed" =
      Except.ok { exAppt with status := Status.confirmed } :=
  ⟨(c7_admin_override exAppt).1 "frozen" (by decide),
   (c7_admin_override exAppt).2.1 "completed" Status.completed rfl (by decide),
   (c7_admin_override exPendingAppt).2.2.1 rfl,
   (c7_admin_override exAppt).2.2.2 (by decide)⟩

/-- C8: a date whose weekday is Sunday yields no slots; every other
weekday yields the same fixed six-slot list, starting 17:00, 17:30, 18:00,
18:30, 19:00, 19:30. -/
theorem c8_sunday_closed_slots (d : Nat) :
    (getDay d = 0 → availableSlots d = []) ∧
    (getDay d ≠ 0 → availableSlots d = weekdaySlots) ∧
    weekdaySlots.map Slot.time =
      ["17:00", "17:30", "18:00", "18:30", "19:00", "19:30"] := by
  refine ⟨fun h => ?_, fun h => ?_, rfl⟩
  · rw [availableSlots, if_pos h]
  · rw [availableSlots, if_neg h]

/-- C8 witness: day 3 after the epoch (1970-01-04) is a Sunday and has no
slots; day 4 (a Monday) has the fixed list. -/
theorem c8_sunday_closed_slots_witness :
    availableSlots 3 = [] ∧ availableSlots 4 = weekdaySlots :=
  ⟨(c8_sunday_closed_slots 3).1 rfl, (c8_sunday_closed_slots 4).2.1 (by decide)⟩

/-- C9 counterexample: SetCallStatus with the unknown status `paused`
answers success and returns the appointment unchanged — a silent no-op on
a detectable input error. -/
theorem c9_counterexample_silent_noop :
    setCallStatus exAppt "paused" 5000 = Except.ok exAppt := rfl

/-- C9 amended: for every SetCallStatus call whose status argument is
outside started/ended, on any appointment whose stored status passes the
schema enum, the route answers success while leaving the record unchanged
— i.e. it does silently no-op, contrary to the stated policy. -/
theorem c9_invalid_status_silent_noop (a : Appointment) (s : String) (now : Int)
    (h1 : s ≠ "started") (h2 : s ≠ "ended") (h3 : a.status ∈ schemaStatusEnum) :
    setCallStatus a s now = Except.ok a := by
  rw [setCallStatus]
  simp only [if_neg h1, if_neg h2]
  rw [saveAppointment_of_valid a h3]

/-- C9 witness: the unknown status `resumed` on a pending appointment is
accepted with the record untouched. -/
theorem c9_invalid_status_silent_noop_witness :
    setCallStatus exPendingAppt "resumed" 7 = Except.ok exPendingAppt :=
  c9_invalid_status_silent_noop exPendingAppt "resumed" 7 (by decide) (by decide)
    (by decide)

/-- C10 counterexample: the verified record gains no paid-at timestamp.
The schema defines no `paidAt` path, so strict mode strips it from the
update: verifying the appointment of u1 as the unrelated caller u9
answers success and yields exactly the original record with only
`paymentStatus` and `status` rewritten — no paid-at (and no payment id)
is ever recorded, falsifying the non-null-paidAt conjunct of the claim
at this concrete input. -/
theorem c10_counterexample_no_paid_at :
    (verifyPayment [exAppt] "u9" none none "a1" "pay9" 7).1 =
      [{ exAppt with paymentStatus := PaymentStatus.completed,
                     status := Status.confirmed }] ∧
    (verifyPayment [exAppt] "u9" none none "a1" "pay9" 7).2 = true :=
  ⟨rfl, rfl⟩

/-- C10 amended: payment verify always answers success and ignores the
acting user, order id, signature, payment id and timestamp entirely; it
writes nothing when the id matches no appointment, and when it matches
one — whoever owns it — it sets paymentStatus completed and status
confirmed and nothing else: the razorpayPaymentId and paidAt paths of the
update are stripped by strict mode because the schema defines neither, so
no paid-at timestamp is recorded. -/
theorem c10_verify_unconditional (store : List Appointment)
    (u1 u2 : String) (o1 o2 sig1 sig2 : Option String)
    (id pid1 pid2 : String) (now1 now2 : Int) :
    (verifyPayment store u1 o1 sig1 id pid1 now1).2 = true ∧
    verifyPayment store u1 o1 sig1 id pid1 now1 =
      verifyPayment store u2 o2 sig2 id pid2 now2 ∧
    ((∀ a ∈ store, a.id ≠ id) →
      (verifyPayment store u1 o1 sig1 id pid1 now1).1 = store) ∧
    (∀ a ∈ store, a.id = id →
      { a with paymentStatus := PaymentStatus.completed,
               status := Status.confirmed } ∈
        (verifyPayment store u1 o1 sig1 id pid1 now1).1) := by
  refine ⟨rfl, rfl, ?_, ?_⟩
  · intro h
    exact findByIdAndUpdate_not_found store id _ h
  · intro a ha hid
    exact findByIdAndUpdate_mem store id _ a ha hid

/-- C10 witness: verifying against the store holding only the appointment
of user u1, as the unrelated caller u9 with arbitrary order data: success,
no write for an unknown id, and the matched appointment ends confirmed
with the payment completed. -/
theorem c10_verify_unconditional_witness :
    (verifyPayment [exAppt] "u9" none none "a1" "pay9" 7).2 = true ∧
    (verifyPayment [exAppt] "u9" none none "zz" "pay9" 7).1 = [exAppt] ∧
    { exAppt with paymentStatus := PaymentStatus.completed,
                  status := Status.confirmed } ∈
      (verifyPayment [exAppt] "u9" none none "a1" "pay9" 7).1 :=
  ⟨(c10_verify_unconditional [exAppt] "u9" "x" none none none none
      "a1" "pay9" "p2" 7 8).1,
   (c10_verify_unconditional [exAppt] "u9" "x" none none none none
      "zz" "pay9" "p2" 7 8).2.2.1 (by decide),
   (c10_verify_unconditional [exAppt] "u9" "x" none none none none
      "a1" "pay9" "p2" 7 8).2.2.2 exAppt (by simp) rfl⟩

end Astrologix
